import Mathlib

/-!
Verification of the hitting-metrics core of src/app.py (PBRHitting).

Shallow embedding conventions:
- Python floats are modelled as rationals; round(x, k) is modelled as
  rounding x * 10^k to the nearest integer and dividing back.  The model
  rounds half up while Python rounds half to even; every concrete input
  used below is tie-free, so the two conventions agree there.
- Nullable warehouse fields are Option values; Python functions that can
  raise are modelled with Except.
- External collaborators (the warehouse lookups) are passed in as
  function parameters.
-/

/-- One batted-ball event row as consumed by calculate_hitting_summary
(src/app.py): nullable ExitSpeed (mph) and launch Angle (degrees). -/
structure BattedBall where
  ExitSpeed : Option ℚ
  Angle : Option ℚ
deriving DecidableEq

/-- Python round(x, 1): one-decimal rounding. -/
def round1 (x : ℚ) : ℚ := (round (10 * x) : ℤ) / 10

/-- Python round(x, 2): two-decimal rounding. -/
def round2 (x : ℚ) : ℚ := (round (100 * x) : ℤ) / 100

/-- Result dictionary of calculate_hitting_percentile_rank
(src/app.py lines 1299-1303). -/
structure PercentileResult where
  percentile : ℚ
  better : Bool
  total_hitters : ℕ
deriving DecidableEq

/-- calculate_hitting_percentile_rank (src/app.py lines 1272-1303).
Returns none when the player value is null or the population list is
empty; otherwise sorts the population, counts members strictly below the
player value, turns that into a one-decimal percentage, and remaps a
result that is at most 0 to 1.0 and at least 100 to 99.0. -/
def calculate_hitting_percentile_rank (player_value : Option ℚ)
    (college_data_list : List ℚ) : Option PercentileResult :=
  match player_value with
  | none => none
  | some pv =>
    if college_data_list = [] then none
    else
      let sorted_college_data := college_data_list.mergeSort fun a b => decide (a ≤ b)
      let total_count := sorted_college_data.length
      let values_below := sorted_college_data.countP fun value => decide (value < pv)
      let raw_percentile := ((values_below : ℚ) / total_count) * 100
      let final_percentile := round1 raw_percentile
      let final_percentile :=
        if final_percentile ≤ 0 then 1
        else if 100 ≤ final_percentile then 99
        else final_percentile
      some { percentile := final_percentile
             better := decide (50 ≤ final_percentile)
             total_hitters := total_count }

/-- Result dictionary of calculate_hitting_comparison
(src/app.py lines 562-566). -/
structure HittingComparison where
  difference : ℚ
  better : Bool
  absolute_diff : ℚ
deriving DecidableEq

/-- calculate_hitting_comparison (src/app.py lines 552-566): difference of
player value and college average, better iff the difference is positive;
none when either side is null. -/
def calculate_hitting_comparison (player_value college_average : Option ℚ) :
    Option HittingComparison :=
  match player_value, college_average with
  | some p, some c =>
    let difference := p - c
    some { difference := difference
           better := decide (0 < difference)
           absolute_diff := |difference| }
  | _, _ => none

/-- Reference-population averages dictionary built by
get_college_hitting_averages (src/app.py lines 531-539); each metric can
be null. -/
structure CollegeAverages where
  avg_exit_velo : Option ℚ
  max_exit_velo : Option ℚ
  percentile_90_exit_velo : Option ℚ
  barrel_rate : Option ℚ
  hardhit_rate : Option ℚ
  total_batted_balls : ℤ
  total_batters : Option ℤ
deriving DecidableEq

/-- Return dictionary of calculate_hitting_summary
(src/app.py lines 577-583 and 638-657).  The empty-EV branch (lines
577-583) returns only the five zero metrics; it is modelled as the same
structure with every comparison and reference field none. -/
structure HittingSummary where
  avg_exit_velo : ℚ
  percentile_90_ev : ℚ
  max_exit_velo : ℚ
  barrel_rate : ℚ
  hardhit_rate : ℚ
  comparison_level : Option String
  college_avg_exit_velo : Option ℚ
  college_percentile_90_ev : Option ℚ
  college_max_exit_velo : Option ℚ
  college_barrel_rate : Option ℚ
  college_hardhit_rate : Option ℚ
  avg_exit_velo_comp : Option HittingComparison
  percentile_90_ev_comp : Option HittingComparison
  max_exit_velo_comp : Option HittingComparison
  barrel_rate_comp : Option HittingComparison
  hardhit_rate_comp : Option HittingComparison
deriving DecidableEq

/-- Python truthiness of h.get(ExitSpeed) in the filter on line 574 of
src/app.py: the event counts as a batted ball with EV iff ExitSpeed is
non-null and non-zero. -/
def hasEV (h : BattedBall) : Bool :=
  match h.ExitSpeed with
  | some v => decide (v ≠ 0)
  | none => false

/-- Python max over a list (total: 0 on the empty list, which the call
site never passes). -/
def pymax : List ℚ → ℚ
  | [] => 0
  | x :: xs => xs.foldl max x

/-- Line 585 of src/app.py: exit speeds of the events that pass the EV
filter. -/
def exitVelocities (hitting_data : List BattedBall) : List ℚ :=
  (hitting_data.filter hasEV).map fun h => h.ExitSpeed.getD 0

/-- Line 588 of src/app.py: arithmetic mean of the filtered exit speeds
(unrounded). -/
def avg_exit_velo_of (hitting_data : List BattedBall) : ℚ :=
  (exitVelocities hitting_data).sum / (exitVelocities hitting_data).length

/-- Line 589 of src/app.py: maximum of the filtered exit speeds. -/
def max_exit_velo_of (hitting_data : List BattedBall) : ℚ :=
  pymax (exitVelocities hitting_data)

/-- Lines 591-594 of src/app.py: nearest-rank 90th percentile.  The list
is sorted ascending and indexed at int(0.9 * N); the Python float product
0.9 * N truncates to exactly 9 * N / 10 (natural division) for every list
length N, which is how the index is written here. -/
def percentile_90_of (vels : List ℚ) : ℚ :=
  let sorted_velocities := vels.mergeSort fun a b => decide (a ≤ b)
  let percentile_90_index := 9 * sorted_velocities.length / 10
  match sorted_velocities with
  | [] => 0
  | _ => sorted_velocities.getD percentile_90_index 0

/-- Line 605 of src/app.py: hard hit iff exit speed (defaulted to 0) is
at least 95. -/
def isHardHit (h : BattedBall) : Bool :=
  decide (95 ≤ h.ExitSpeed.getD 0)

/-- Lines 605-610 of src/app.py: barrel iff hard hit and the launch angle
is non-null and lies in [8, 32]. -/
def isBarrel (h : BattedBall) : Bool :=
  isHardHit h &&
    match h.Angle with
    | some a => decide (8 ≤ a ∧ a ≤ 32)
    | none => false

/-- Lines 596-614 of src/app.py: barrel count over total batted balls with
EV, as a percentage (unrounded; 0 when there are no such balls). -/
def barrel_rate_of (hitting_data : List BattedBall) : ℚ :=
  let balls_with_ev := hitting_data.filter hasEV
  if 0 < balls_with_ev.length then
    (balls_with_ev.countP isBarrel : ℚ) / balls_with_ev.length * 100
  else 0

/-- Lines 596-615 of src/app.py: hard-hit count over total batted balls
with EV, as a percentage (unrounded; 0 when there are no such balls). -/
def hardhit_rate_of (hitting_data : List BattedBall) : ℚ :=
  let balls_with_ev := hitting_data.filter hasEV
  if 0 < balls_with_ev.length then
    (balls_with_ev.countP isHardHit : ℚ) / balls_with_ev.length * 100
  else 0

/-- Lines 646-650 of src/app.py: a reference metric is displayed as its
one-decimal rounding when present and non-zero (Python truthiness),
otherwise as null. -/
def collegeDisplay (v : Option ℚ) : Option ℚ :=
  match v with
  | some x => if x = 0 then none else some (round1 x)
  | none => none

/-- calculate_hitting_summary (src/app.py lines 568-657).  The two
external warehouse lookups get_college_hitting_averages (returns none on
error or missing data, lines 546-550) and get_hitter_competition_level
(always returns a level string, default D1) are passed as parameters.
Returns none for a null/empty input list; returns the zero summary when
no event passes the EV filter; otherwise computes the five metrics,
attaches one-decimal roundings for display, and attaches comparisons
computed from the unrounded metrics when the reference lookup succeeds. -/
def calculate_hitting_summary
    (get_college_hitting_averages : String → Option CollegeAverages)
    (get_hitter_competition_level : String → String)
    (hitting_data : List BattedBall) (hitter_name : Option String) :
    Option HittingSummary :=
  if hitting_data = [] then none
  else
    let balls_with_ev := hitting_data.filter hasEV
    if balls_with_ev = [] then
      some { avg_exit_velo := 0, percentile_90_ev := 0, max_exit_velo := 0
             barrel_rate := 0, hardhit_rate := 0
             comparison_level := none
             college_avg_exit_velo := none, college_percentile_90_ev := none
             college_max_exit_velo := none, college_barrel_rate := none
             college_hardhit_rate := none
             avg_exit_velo_comp := none, percentile_90_ev_comp := none
             max_exit_velo_comp := none, barrel_rate_comp := none
             hardhit_rate_comp := none }
    else
      let avg_exit_velo := avg_exit_velo_of hitting_data
      let max_exit_velo := max_exit_velo_of hitting_data
      let percentile_90_ev := percentile_90_of (exitVelocities hitting_data)
      let barrel_rate := barrel_rate_of hitting_data
      let hardhit_rate := hardhit_rate_of hitting_data
      let comparison_level : Option String :=
        match hitter_name with
        | some nm => if nm = "" then none else some (get_hitter_competition_level nm)
        | none => none
      let college_averages : Option CollegeAverages :=
        match comparison_level with
        | some lvl => get_college_hitting_averages lvl
        | none => none
      some { avg_exit_velo := round1 avg_exit_velo
             percentile_90_ev := round1 percentile_90_ev
             max_exit_velo := round1 max_exit_velo
             barrel_rate := round1 barrel_rate
             hardhit_rate := round1 hardhit_rate
             comparison_level := comparison_level
             college_avg_exit_velo :=
               match college_averages with
               | some ca => collegeDisplay ca.avg_exit_velo
               | none => none
             college_percentile_90_ev :=
               match college_averages with
               | some ca => collegeDisplay ca.percentile_90_exit_velo
               | none => none
             college_max_exit_velo :=
               match college_averages with
               | some ca => collegeDisplay ca.max_exit_velo
               | none => none
             college_barrel_rate :=
               match college_averages with
               | some ca => collegeDisplay ca.barrel_rate
               | none => none
             college_hardhit_rate :=
               match college_averages with
               | some ca => collegeDisplay ca.hardhit_rate
               | none => none
             avg_exit_velo_comp :=
               match college_averages with
               | some ca => calculate_hitting_comparison (some avg_exit_velo) ca.avg_exit_velo
               | none => none
             percentile_90_ev_comp :=
               match college_averages with
               | some ca => calculate_hitting_comparison (some percentile_90_ev) ca.percentile_90_exit_velo
               | none => none
             max_exit_velo_comp :=
               match college_averages with
               | some ca => calculate_hitting_comparison (some max_exit_velo) ca.max_exit_velo
               | none => none
             barrel_rate_comp :=
               match college_averages with
               | some ca => calculate_hitting_comparison (some barrel_rate) ca.barrel_rate
               | none => none
             hardhit_rate_comp :=
               match college_averages with
               | some ca => calculate_hitting_comparison (some hardhit_rate) ca.hardhit_rate
               | none => none }

/-- Line 954 of src/app.py: clip the spray direction to the field foul
lines at -45 and +45 degrees. -/
def clip45 (direction : ℚ) : ℚ := max (-45) (min 45 direction)

/-- Lines 961-970 of src/app.py: piecewise-linear map from carry distance
(feet) to a radius percentage of the plot, saturating in the last band. -/
def radius_percent (distance : ℚ) : ℚ :=
  if distance ≤ 100 then distance / 100 * 15
  else if distance ≤ 200 then 15 + (distance - 100) / 100 * 15
  else if distance ≤ 300 then 30 + (distance - 200) / 100 * 15
  else if distance ≤ 400 then 45 + (distance - 300) / 100 * 15
  else 60 + min ((distance - 400) / 100) 1 * 10

/-- Lines 949-983 of src/app.py before the final clamp: home plate sits at
(50, 85); the clipped direction (degrees, converted to radians) and the
distance-derived radius give sine/cosine offsets from it.  Exact real
trigonometry stands in for the float math. -/
noncomputable def sprayRaw (direction distance : ℚ) : ℝ × ℝ :=
  let field_direction := clip45 direction
  let angle_rad : ℝ := (field_direction : ℝ) * Real.pi / 180
  let r : ℝ := (radius_percent distance : ℝ)
  (50 + Real.sin angle_rad * r, 85 - Real.cos angle_rad * r)

/-- calculate_spray_position (src/app.py lines 949-992): the raw position
with both coordinates clamped to [5, 95] (lines 986-987). -/
noncomputable def calculate_spray_position (direction distance : ℚ) : ℝ × ℝ :=
  let p := sprayRaw direction distance
  (max 5 (min 95 p.1), max 5 (min 95 p.2))

/-- One point-of-contact row as consumed by calculate_contact_stats
(src/app.py): the three nullable contact coordinates. -/
structure ContactRecord where
  ContactPositionX : Option ℚ
  ContactPositionY : Option ℚ
  ContactPositionZ : Option ℚ
deriving DecidableEq

/-- Return dictionary of calculate_contact_stats (src/app.py lines
269-279), keeping the numeric averages (the formatted display strings on
lines 270-272 render the same numbers). -/
structure ContactStats where
  raw_avg_x : ℚ
  raw_avg_y : ℚ
  raw_avg_z : ℚ
  total_contacts : ℕ
  primary_zone : String
  consistency : String
deriving DecidableEq

/-- Python division: raises ZeroDivisionError on a zero denominator. -/
def pydiv (a b : ℚ) : Except String ℚ :=
  if b = 0 then .error "ZeroDivisionError" else .ok (a / b)

/-- Lines 256-267 of src/app.py: consistency label from the rounded sample
standard deviation of the depth positions; statistics.stdev needs at least
two points and the surrounding try/except turns that failure into N/A. -/
noncomputable def consistencyLabel (y_positions : List ℚ) : String :=
  if y_positions.length < 2 then "N/A"
  else
    let mean : ℝ := ((y_positions.sum / y_positions.length : ℚ) : ℝ)
    let variance : ℝ :=
      ((y_positions.map fun y => ((y : ℝ) - mean) ^ 2).sum) / (y_positions.length - 1)
    let consistency_score : ℝ := (round (100 * Real.sqrt variance) : ℤ) / 100
    if consistency_score < 2 then "Excellent"
    else if consistency_score < 4 then "Good"
    else "Needs Work"

/-- calculate_contact_stats (src/app.py lines 230-279).  Returns none for
an empty input or when no record has a non-null X coordinate; the three
averages divide by the lengths of the per-axis non-null lists, and only
the X list is guarded, so an empty Y or Z list raises ZeroDivisionError
exactly as the unguarded Python divisions on lines 245-246 do. -/
noncomputable def calculate_contact_stats (contact_data : List ContactRecord) :
    Except String (Option ContactStats) :=
  if contact_data = [] then .ok none
  else
    let x_positions := contact_data.filterMap ContactRecord.ContactPositionX
    let y_positions := contact_data.filterMap ContactRecord.ContactPositionY
    let z_positions := contact_data.filterMap ContactRecord.ContactPositionZ
    if x_positions = [] then .ok none
    else
      match pydiv x_positions.sum x_positions.length with
      | .error e => .error e
      | .ok ax =>
        match pydiv y_positions.sum y_positions.length with
        | .error e => .error e
        | .ok ay =>
          match pydiv z_positions.sum z_positions.length with
          | .error e => .error e
          | .ok az =>
            let avg_x := round2 ax
            let avg_y := round2 ay
            let avg_z := round2 az
            let primary_zone :=
              if 3 < avg_y then "Deep"
              else if -3 < avg_y then "Optimal"
              else "Early"
            .ok (some { raw_avg_x := avg_x, raw_avg_y := avg_y, raw_avg_z := avg_z
                        total_contacts := contact_data.length
                        primary_zone := primary_zone
                        consistency := consistencyLabel y_positions })

/-- The percentile that calculate_hitting_percentile_rank reports when the
count of population members below the player value is b out of t: the
one-decimal rounding of the raw percentage, with results at most 0 remapped
to 1 and results at least 100 remapped to 99. -/
def finalPct (b t : ℕ) : ℚ :=
  let x := round1 ((b : ℚ) / t * 100)
  if x ≤ 0 then 1 else if 100 ≤ x then 99 else x

theorem round_mono_rat {x y : ℚ} (h : x ≤ y) : round x ≤ round y := by
  rw [round_eq, round_eq]
  exact Int.floor_le_floor (by linarith)

theorem round1_mono {x y : ℚ} (h : x ≤ y) : round1 x ≤ round1 y := by
  unfold round1
  have h10 : round (10 * x) ≤ round (10 * y) := round_mono_rat (by linarith)
  have : ((round (10 * x) : ℤ) : ℚ) ≤ ((round (10 * y) : ℤ) : ℚ) := by exact_mod_cast h10
  linarith

theorem round1_zero : round1 0 = 0 := by
  unfold round1
  norm_num

theorem round1_hundred : round1 100 = 100 := by
  unfold round1
  norm_num

theorem round1_one_le {x : ℚ} (h : 1 ≤ x) : 1 ≤ round1 x := by
  have h1 : round (10 : ℚ) ≤ round (10 * x) := round_mono_rat (by linarith)
  have h2 : round (10 : ℚ) = 10 := by simp
  unfold round1
  have h3 : ((10 : ℤ) : ℚ) ≤ ((round (10 * x) : ℤ) : ℚ) := by
    exact_mod_cast h2 ▸ h1
  push_cast at h3
  linarith

theorem round1_le_99 {x : ℚ} (h : x ≤ 99) : round1 x ≤ 99 := by
  have h1 : round (10 * x) ≤ round (990 : ℚ) := round_mono_rat (by linarith)
  have h2 : round (990 : ℚ) = 990 := by simp
  unfold round1
  have h3 : ((round (10 * x) : ℤ) : ℚ) ≤ ((990 : ℤ) : ℚ) := by
    exact_mod_cast h2 ▸ h1
  push_cast at h3
  linarith

/-- Characterization of calculate_hitting_percentile_rank on a non-empty
population: it returns the clamped rounded percentage of population
members strictly below the player value. -/
theorem percentile_rank_eq (pv : ℚ) (pop : List ℚ) (hpop : pop ≠ []) :
    calculate_hitting_percentile_rank (some pv) pop =
      some { percentile := finalPct (pop.countP fun x => decide (x < pv)) pop.length
             better := decide (50 ≤ finalPct (pop.countP fun x => decide (x < pv)) pop.length)
             total_hitters := pop.length } := by
  simp only [calculate_hitting_percentile_rank]
  rw [if_neg hpop]
  have hperm := List.mergeSort_perm pop fun a b => decide (a ≤ b)
  have hcount := hperm.countP_eq fun value => decide (value < pv)
  have hlen : (pop.mergeSort fun a b => decide (a ≤ b)).length = pop.length :=
    List.length_mergeSort pop
  simp only [hcount, hlen, finalPct]

theorem finalPct_zero (t : ℕ) : finalPct 0 t = 1 := by
  unfold finalPct
  norm_num [round1_zero]

theorem finalPct_full {t : ℕ} (ht : t ≠ 0) : finalPct t t = 99 := by
  unfold finalPct
  have htq : ((t : ℚ)) ≠ 0 := by exact_mod_cast ht
  rw [div_self htq]
  norm_num [round1_hundred]

theorem finalPct_bounds (b t : ℕ) :
    1 / 10 ≤ finalPct b t ∧ finalPct b t ≤ 999 / 10 := by
  unfold finalPct
  set x := round1 ((b : ℚ) / t * 100) with hx
  by_cases h0 : x ≤ 0
  · rw [if_pos h0]; norm_num
  · rw [if_neg h0]
    by_cases h100 : 100 ≤ x
    · rw [if_pos h100]; norm_num
    · rw [if_neg h100]
      push_neg at h0 h100
      have hxk : x = ((round (10 * ((b : ℚ) / t * 100)) : ℤ) : ℚ) / 10 := by
        rw [hx]; rfl
      set k : ℤ := round (10 * ((b : ℚ) / t * 100)) with hk
      constructor
      · have hkpos : (0 : ℚ) < (k : ℚ) := by
          by_contra hle
          push_neg at hle
          have : x ≤ 0 := by rw [hxk]; linarith
          linarith
        have : (1 : ℤ) ≤ k := by exact_mod_cast hkpos
        have : (1 : ℚ) ≤ (k : ℚ) := by exact_mod_cast this
        rw [hxk]; linarith
      · have hklt : (k : ℚ) < 1000 := by
          by_contra hge
          push_neg at hge
          have : 100 ≤ x := by rw [hxk]; linarith
          linarith
        have : k < 1000 := by exact_mod_cast hklt
        have : k ≤ 999 := by omega
        have : (k : ℚ) ≤ 999 := by exact_mod_cast this
        rw [hxk]; linarith

theorem finalPct_mono {b1 b2 t : ℕ} (hb : b1 ≤ b2) (hbt : b2 ≤ t)
    (ht0 : t ≠ 0) (ht : t ≤ 100) : finalPct b1 t ≤ finalPct b2 t := by
  have htq : (0 : ℚ) < (t : ℚ) := by
    exact_mod_cast Nat.pos_of_ne_zero ht0
  have htq100 : (t : ℚ) ≤ 100 := by exact_mod_cast ht
  have htne : (t : ℚ) ≠ 0 := ne_of_gt htq
  have hdivt : (1 : ℚ) ≤ 100 / t := by
    rw [one_le_div htq]; linarith
  have hcast : (b1 : ℚ) ≤ (b2 : ℚ) := by exact_mod_cast hb
  have hraw : (b1 : ℚ) / t * 100 ≤ (b2 : ℚ) / t * 100 := by gcongr
  have hx12 : round1 ((b1 : ℚ) / t * 100) ≤ round1 ((b2 : ℚ) / t * 100) :=
    round1_mono hraw
  have hle99 : ∀ b : ℕ, b < t → round1 ((b : ℚ) / t * 100) ≤ 99 := by
    intro b hbl
    apply round1_le_99
    have hb1 : (b : ℚ) ≤ (t : ℚ) - 1 := by
      have : (b : ℚ) + 1 ≤ (t : ℚ) := by exact_mod_cast hbl
      linarith
    have hdd : (b : ℚ) / t ≤ ((t : ℚ) - 1) / t := by gcongr
    have hmul := mul_le_mul_of_nonneg_right hdd (by norm_num : (0 : ℚ) ≤ 100)
    have heq : ((t : ℚ) - 1) / t * 100 = 100 - 100 / t := by
      field_simp
      ring
    linarith
  have hge1 : ∀ b : ℕ, 1 ≤ b → 1 ≤ round1 ((b : ℚ) / t * 100) := by
    intro b hbl
    apply round1_one_le
    have hb1 : (1 : ℚ) ≤ (b : ℚ) := by exact_mod_cast hbl
    have hdd : (1 : ℚ) / t ≤ (b : ℚ) / t := by gcongr
    have hmul := mul_le_mul_of_nonneg_right hdd (by norm_num : (0 : ℚ) ≤ 100)
    have heq : (1 : ℚ) / t * 100 = 100 / t := by ring
    linarith
  unfold finalPct
  set x1 := round1 ((b1 : ℚ) / t * 100) with hx1
  set x2 := round1 ((b2 : ℚ) / t * 100) with hx2
  by_cases h2t : b2 = t
  · subst h2t
    have hfull : ((b2 : ℚ)) / b2 * 100 = 100 := by
      rw [div_self htne]; ring
    have hx2v : x2 = 100 := by rw [hx2, hfull, round1_hundred]
    have hrhs : (if x2 ≤ 0 then (1 : ℚ) else if 100 ≤ x2 then 99 else x2) = 99 := by
      rw [hx2v]; norm_num
    rw [hrhs]
    by_cases h1t : b1 = b2
    · subst h1t
      have hx1v : x1 = 100 := by rw [hx1, hfull, round1_hundred]
      rw [hx1v]; norm_num
    · have hb1t : b1 < b2 := lt_of_le_of_ne hb h1t
      have h99 := hle99 b1 hb1t
      rw [← hx1] at h99
      by_cases h0 : x1 ≤ 0
      · rw [if_pos h0]; norm_num
      · rw [if_neg h0]
        by_cases h100 : 100 ≤ x1
        · rw [if_pos h100]
        · rw [if_neg h100]; linarith
  · have hb2t : b2 < t := lt_of_le_of_ne hbt h2t
    have hx2le : x2 ≤ 99 := by
      have := hle99 b2 hb2t
      rwa [← hx2] at this
    by_cases hb20 : b2 = 0
    · subst hb20
      have hb10 : b1 = 0 := Nat.le_zero.mp hb
      subst hb10
      exact le_refl _
    · have hb21 : 1 ≤ b2 := Nat.one_le_iff_ne_zero.mpr hb20
      have hx2ge : 1 ≤ x2 := by
        have := hge1 b2 hb21
        rwa [← hx2] at this
      have hnot0 : ¬ x2 ≤ 0 := by linarith
      have hnot100 : ¬ 100 ≤ x2 := by linarith
      rw [if_neg hnot0, if_neg hnot100]
      by_cases h0 : x1 ≤ 0
      · rw [if_pos h0]; linarith
      · rw [if_neg h0]
        have hn100 : ¬ 100 ≤ x1 := by linarith
        rw [if_neg hn100]
        exact hx12

/-- Claim C1 (amended): for every non-null player value and non-empty
population, the reported percentile lies in [0.1, 99.9]; a player below
the whole population gets exactly 1.0 and a player above the whole
population gets exactly 99.0.  (The original [1, 99] range is refuted by
C1_range_counterexample: rounded percentiles strictly between 99 and 100
or between 0 and 1 pass through the clamp unchanged.) -/
theorem C1_percentile_rank_range (v : ℚ) (pop : List ℚ) (r : PercentileResult)
    (h : calculate_hitting_percentile_rank (some v) pop = some r) :
    (1 / 10 ≤ r.percentile ∧ r.percentile ≤ 999 / 10) ∧
    ((∀ x ∈ pop, v ≤ x) → r.percentile = 1) ∧
    ((∀ x ∈ pop, x < v) → r.percentile = 99) := by
  have hpop : pop ≠ [] := by
    intro hnil
    subst hnil
    simp [calculate_hitting_percentile_rank] at h
  rw [percentile_rank_eq v pop hpop] at h
  have hr := (Option.some.inj h).symm
  subst hr
  refine ⟨finalPct_bounds _ _, ?_, ?_⟩
  · intro hall
    have hcount : (pop.countP fun x => decide (x < v)) = 0 := by
      rw [List.countP_eq_zero]
      intro a ha
      simpa using not_lt.mpr (hall a ha)
    show finalPct _ _ = 1
    rw [hcount]
    exact finalPct_zero _
  · intro hall
    have hcount : (pop.countP fun x => decide (x < v)) = pop.length := by
      rw [List.countP_eq_length]
      intro a ha
      simpa using hall a ha
    have hlen0 : pop.length ≠ 0 := fun hl => hpop (List.length_eq_zero.mp hl)
    show finalPct _ _ = 99
    rw [hcount]
    exact finalPct_full hlen0

set_option maxRecDepth 100000

unseal Rat.add Rat.mul Rat.inv Rat.sub List.merge List.mergeSort in
/-- Witness for C1_percentile_rank_range at the population [80, 85, 90,
95, 100] and player value 92 (three members below gives the 60.0th
percentile, inside all bounds). -/
theorem C1_percentile_rank_range_witness :
    (1 / 10 ≤ (60 : ℚ) ∧ (60 : ℚ) ≤ 999 / 10) ∧
    ((∀ x ∈ [(80 : ℚ), 85, 90, 95, 100], (92 : ℚ) ≤ x) → (60 : ℚ) = 1) ∧
    ((∀ x ∈ [(80 : ℚ), 85, 90, 95, 100], x < (92 : ℚ)) → (60 : ℚ) = 99) :=
  C1_percentile_rank_range 92 [80, 85, 90, 95, 100]
    { percentile := 60, better := true, total_hitters := 5 } (by decide)

unseal Rat.add Rat.mul Rat.inv Rat.sub List.merge List.mergeSort in
/-- Counterexample to claim C1 as stated: with a population of 106 values
of which 105 lie below the player value, the raw percentile is
105/106*100, which rounds to 99.1; 99.1 is not clamped (it is neither at
most 0 nor at least 100) and lies outside [1, 99]. -/
theorem C1_range_counterexample :
    calculate_hitting_percentile_rank (some 1) (List.replicate 105 (0 : ℚ) ++ [2]) =
      some { percentile := 991 / 10, better := true, total_hitters := 106 } ∧
    ¬ (991 / 10 : ℚ) ≤ 99 := by
  constructor
  · decide
  · norm_num

/-- Claim C3 (amended): calculate_hitting_percentile_rank is monotonic in
the player value for every fixed non-empty population of at most 100
members: v1 < v2 implies the percentile for v1 is at most the percentile
for v2.  (For larger populations the 0-to-1 and 100-to-99 clamp can
overtake neighbouring rounded percentiles such as 0.9 or 99.1, refuted by
C3_mono_counterexample.) -/
theorem C3_percentile_rank_mono (pop : List ℚ) (v1 v2 : ℚ)
    (r1 r2 : PercentileResult) (hlen : pop.length ≤ 100) (hv : v1 < v2)
    (h1 : calculate_hitting_percentile_rank (some v1) pop = some r1)
    (h2 : calculate_hitting_percentile_rank (some v2) pop = some r2) :
    r1.percentile ≤ r2.percentile := by
  have hpop : pop ≠ [] := by
    intro hnil
    subst hnil
    simp [calculate_hitting_percentile_rank] at h1
  rw [percentile_rank_eq v1 pop hpop] at h1
  rw [percentile_rank_eq v2 pop hpop] at h2
  have hr1 := (Option.some.inj h1).symm
  have hr2 := (Option.some.inj h2).symm
  subst hr1
  subst hr2
  have hcnt : (pop.countP fun x => decide (x < v1)) ≤
      (pop.countP fun x => decide (x < v2)) := by
    apply List.countP_mono_left
    intro a _ ha
    simp only [decide_eq_true_eq] at ha ⊢
    exact lt_trans ha hv
  exact finalPct_mono hcnt (List.countP_le_length _)
    (fun hl => hpop (List.length_eq_zero.mp hl)) hlen

unseal Rat.add Rat.mul Rat.inv Rat.sub List.merge List.mergeSort in
/-- Witness for C3_percentile_rank_mono at the population [80, 85, 90] and
player values 82 < 87: the percentiles are 33.3 and 66.7. -/
theorem C3_percentile_rank_mono_witness : (333 / 10 : ℚ) ≤ 667 / 10 :=
  C3_percentile_rank_mono [80, 85, 90] 82 87
    { percentile := 333 / 10, better := false, total_hitters := 3 }
    { percentile := 667 / 10, better := true, total_hitters := 3 }
    (by decide) (by norm_num) (by decide) (by decide)

unseal Rat.add Rat.mul Rat.inv Rat.sub List.merge List.mergeSort in
/-- Counterexample to claim C3 as stated: over a 106-member population
with one member at 0 and the rest at 10, the player value -1 lies below
everyone (raw percentile 0, clamped up to 1.0) while the larger player
value 5 lies above exactly one member (raw percentile 100/106, rounded to
0.9, not clamped), so the rank decreases from 1.0 to 0.9 as the player
value increases. -/
theorem C3_mono_counterexample :
    (-1 : ℚ) < 5 ∧
    calculate_hitting_percentile_rank (some (-1)) ((0 : ℚ) :: List.replicate 105 10) =
      some { percentile := 1, better := false, total_hitters := 106 } ∧
    calculate_hitting_percentile_rank (some 5) ((0 : ℚ) :: List.replicate 105 10) =
      some { percentile := 9 / 10, better := false, total_hitters := 106 } ∧
    ¬ (1 : ℚ) ≤ 9 / 10 := by
  refine ⟨by norm_num, by decide, by decide, by norm_num⟩

theorem floor_nine_tenths (n : ℕ) :
    Nat.floor ((9 : ℚ) / 10 * n) = 9 * n / 10 := by
  have h : (9 : ℚ) / 10 * n = ((9 * n : ℕ) : ℚ) / ((10 : ℕ) : ℚ) := by
    push_cast
    ring
  rw [h, Nat.floor_div_nat, Nat.floor_natCast]

/-- Claim C2: for every non-empty list of exit speeds, the 90th-percentile
exit velocity computed by calculate_hitting_summary (lines 591-594 of
src/app.py, the value of percentile_90_of before display rounding) equals
the element at index floor(0.9 * N) of the ascending-sorted list, for any
ascending sort s of the input; the index is in bounds, so this is a real
element, with a truncated rather than rounded or interpolated index. -/
theorem C2_percentile_90_nearest_rank (vels s : List ℚ)
    (hne : vels ≠ []) (hsorted : s.Sorted (· ≤ ·)) (hperm : vels.Perm s) :
    Nat.floor ((9 : ℚ) / 10 * vels.length) < s.length ∧
    percentile_90_of vels = s.getD (Nat.floor ((9 : ℚ) / 10 * vels.length)) 0 := by
  have hms : vels.mergeSort (fun a b => decide (a ≤ b)) = s := by
    refine List.eq_of_perm_of_sorted ((List.mergeSort_perm vels _).trans hperm) ?_ hsorted
    exact List.sorted_mergeSort' vels
  have hlen : s.length = vels.length := hperm.length_eq.symm
  have hpos : 0 < vels.length := List.length_pos.mpr hne
  rw [floor_nine_tenths]
  constructor
  · rw [hlen]
    omega
  · unfold percentile_90_of
    rw [hms]
    cases hs : s with
    | nil =>
      subst hs
      exact absurd (hperm.eq_nil) hne
    | cons a t =>
      subst hs
      simp only [List.length_cons, hlen]

unseal Rat.add Rat.mul Rat.inv Rat.sub List.merge List.mergeSort in
/-- Witness for C2_percentile_90_nearest_rank on the exit-speed list
[93, 104, 88]: N = 3, the index is floor(2.7) = 2, and the 90th-percentile
value is the sorted element 104. -/
theorem C2_percentile_90_nearest_rank_witness :
    Nat.floor ((9 : ℚ) / 10 * ([(93 : ℚ), 104, 88].length)) < ([(88 : ℚ), 93, 104].length) ∧
    percentile_90_of [(93 : ℚ), 104, 88] =
      [(88 : ℚ), 93, 104].getD (Nat.floor ((9 : ℚ) / 10 * ([(93 : ℚ), 104, 88].length))) 0 :=
  C2_percentile_90_nearest_rank [93, 104, 88] [88, 93, 104]
    (by decide) (by decide) (by decide)

/-- Claim C4 (amended): the comparison verdicts attached by
calculate_hitting_summary (the *_comp fields) are computed from the
unrounded internal metric values, while the metric fields the engine
returns for display are the one-decimal roundings of those same values;
the comparisons do not use the rounded display values.  (The original
claim is refuted by C4_rounded_comparison_counterexample.) -/
theorem C4_comparisons_use_unrounded
    (cOf : String → Option CollegeAverages) (lOf : String → String)
    (data : List BattedBall) (nm : String) (ca : CollegeAverages)
    (s : HittingSummary)
    (hnm : nm ≠ "")
    (hca : cOf (lOf nm) = some ca)
    (hs : calculate_hitting_summary cOf lOf data (some nm) = some s)
    (hev : data.filter hasEV ≠ []) :
    (s.avg_exit_velo_comp =
       calculate_hitting_comparison (some (avg_exit_velo_of data)) ca.avg_exit_velo ∧
     s.percentile_90_ev_comp =
       calculate_hitting_comparison (some (percentile_90_of (exitVelocities data)))
         ca.percentile_90_exit_velo ∧
     s.max_exit_velo_comp =
       calculate_hitting_comparison (some (max_exit_velo_of data)) ca.max_exit_velo ∧
     s.barrel_rate_comp =
       calculate_hitting_comparison (some (barrel_rate_of data)) ca.barrel_rate ∧
     s.hardhit_rate_comp =
       calculate_hitting_comparison (some (hardhit_rate_of data)) ca.hardhit_rate) ∧
    (s.avg_exit_velo = round1 (avg_exit_velo_of data) ∧
     s.percentile_90_ev = round1 (percentile_90_of (exitVelocities data)) ∧
     s.max_exit_velo = round1 (max_exit_velo_of data) ∧
     s.barrel_rate = round1 (barrel_rate_of data) ∧
     s.hardhit_rate = round1 (hardhit_rate_of data)) := by
  have hdata : data ≠ [] := by
    intro h
    subst h
    simp at hev
  rw [calculate_hitting_summary, if_neg hdata, if_neg hev] at hs
  rw [if_neg hnm] at hs
  simp only [hca] at hs
  have hr := (Option.some.inj hs).symm
  subst hr
  exact ⟨⟨rfl, rfl, rfl, rfl, rfl⟩, ⟨rfl, rfl, rfl, rfl, rfl⟩⟩

/-- Concrete input for claim C4: two batted balls at 90.02 and 90.06 mph
with no launch angle. -/
def c4_data : List BattedBall :=
  [{ ExitSpeed := some (4501 / 50), Angle := none },
   { ExitSpeed := some (4503 / 50), Angle := none }]

/-- Concrete reference distribution for claim C4: college average exit
velocity 90.0, every other metric missing. -/
def c4_ca : CollegeAverages :=
  { avg_exit_velo := some 90, max_exit_velo := none
    percentile_90_exit_velo := none, barrel_rate := none
    hardhit_rate := none, total_batted_balls := 1000, total_batters := none }

/-- The summary calculate_hitting_summary returns on c4_data against
c4_ca: display average 90.0, college display 90.0, but a comparison
carrying the unrounded difference 0.04. -/
def c4_summary : HittingSummary :=
  { avg_exit_velo := 90, percentile_90_ev := 901 / 10
    max_exit_velo := 901 / 10, barrel_rate := 0, hardhit_rate := 0
    comparison_level := some "D1"
    college_avg_exit_velo := some 90, college_percentile_90_ev := none
    college_max_exit_velo := none, college_barrel_rate := none
    college_hardhit_rate := none
    avg_exit_velo_comp := some { difference := 1 / 25, better := true, absolute_diff := 1 / 25 }
    percentile_90_ev_comp := none, max_exit_velo_comp := none
    barrel_rate_comp := none, hardhit_rate_comp := none }

unseal Rat.add Rat.mul Rat.inv Rat.sub List.merge List.mergeSort in
/-- Witness for C4_comparisons_use_unrounded at c4_data and c4_ca. -/
theorem C4_comparisons_use_unrounded_witness :
    (c4_summary.avg_exit_velo_comp =
       calculate_hitting_comparison (some (avg_exit_velo_of c4_data)) c4_ca.avg_exit_velo ∧
     c4_summary.percentile_90_ev_comp =
       calculate_hitting_comparison (some (percentile_90_of (exitVelocities c4_data)))
         c4_ca.percentile_90_exit_velo ∧
     c4_summary.max_exit_velo_comp =
       calculate_hitting_comparison (some (max_exit_velo_of c4_data)) c4_ca.max_exit_velo ∧
     c4_summary.barrel_rate_comp =
       calculate_hitting_comparison (some (barrel_rate_of c4_data)) c4_ca.barrel_rate ∧
     c4_summary.hardhit_rate_comp =
       calculate_hitting_comparison (some (hardhit_rate_of c4_data)) c4_ca.hardhit_rate) ∧
    (c4_summary.avg_exit_velo = round1 (avg_exit_velo_of c4_data) ∧
     c4_summary.percentile_90_ev = round1 (percentile_90_of (exitVelocities c4_data)) ∧
     c4_summary.max_exit_velo = round1 (max_exit_velo_of c4_data) ∧
     c4_summary.barrel_rate = round1 (barrel_rate_of c4_data) ∧
     c4_summary.hardhit_rate = round1 (hardhit_rate_of c4_data)) :=
  C4_comparisons_use_unrounded (fun _ => some c4_ca) (fun _ => "D1")
    c4_data "p" c4_ca c4_summary (by decide) rfl (by decide) (by decide)

unseal Rat.add Rat.mul Rat.inv Rat.sub List.merge List.mergeSort in
/-- Counterexample to claim C4 as stated: on c4_data (exit speeds 90.02
and 90.06, average 90.04) against a college average of 90.0, the summary
displays the rounded player average 90.0 and the rounded college average
90.0, yet its attached comparison says better = true with difference
0.04; the comparison recomputed from the rounded display values says
better = false with difference 0, so the verdicts are not computed from
the rounded display values. -/
theorem C4_rounded_comparison_counterexample :
    calculate_hitting_summary (fun _ => some c4_ca) (fun _ => "D1")
        c4_data (some "p") = some c4_summary ∧
    c4_summary.avg_exit_velo = 90 ∧
    c4_summary.college_avg_exit_velo = some 90 ∧
    c4_summary.avg_exit_velo_comp =
      some { difference := 1 / 25, better := true, absolute_diff := 1 / 25 } ∧
    calculate_hitting_comparison (some c4_summary.avg_exit_velo)
        c4_summary.college_avg_exit_velo =
      some { difference := 0, better := false, absolute_diff := 0 } := by
  exact ⟨by decide, by decide, by decide, by decide, by decide⟩

/-- Claim C5: whenever calculate_hitting_summary returns a summary, its
barrel rate is at most its hard-hit rate, because every barrel (exit
speed at least 95 with launch angle present in [8, 32]) is also a hard
hit (exit speed at least 95). -/
theorem C5_barrel_rate_le_hardhit_rate
    (cOf : String → Option CollegeAverages) (lOf : String → String)
    (data : List BattedBall) (nm : Option String) (s : HittingSummary)
    (hs : calculate_hitting_summary cOf lOf data nm = some s) :
    s.barrel_rate ≤ s.hardhit_rate := by
  by_cases hdata : data = []
  · subst hdata
    simp [calculate_hitting_summary] at hs
  · rw [calculate_hitting_summary.eq_def, if_neg hdata] at hs
    by_cases hev : data.filter hasEV = []
    · rw [if_pos hev] at hs
      have hr := (Option.some.inj hs).symm
      subst hr
      exact le_refl _
    · rw [if_neg hev] at hs
      have hr := (Option.some.inj hs).symm
      subst hr
      show round1 (barrel_rate_of data) ≤ round1 (hardhit_rate_of data)
      apply round1_mono
      unfold barrel_rate_of hardhit_rate_of
      by_cases hl : 0 < (data.filter hasEV).length
      · rw [if_pos hl, if_pos hl]
        have hcnt : (data.filter hasEV).countP isBarrel ≤
            (data.filter hasEV).countP isHardHit := by
          apply List.countP_mono_left
          intro a _ hb
          unfold isBarrel at hb
          exact (Bool.and_eq_true_iff.mp hb).1
        have hq : ((data.filter hasEV).countP isBarrel : ℚ) ≤
            ((data.filter hasEV).countP isHardHit : ℚ) := by exact_mod_cast hcnt
        have hlen : (0 : ℚ) < ((data.filter hasEV).length : ℚ) := by exact_mod_cast hl
        gcongr
      · rw [if_neg hl, if_neg hl]

unseal Rat.add Rat.mul Rat.inv Rat.sub List.merge List.mergeSort in
/-- Witness for C5_barrel_rate_le_hardhit_rate at the three-event example
(100 mph at 20 degrees, 90 mph at 5 degrees, 96 mph at 15 degrees): both
rates are 66.7. -/
theorem C5_barrel_rate_le_hardhit_rate_witness : (667 / 10 : ℚ) ≤ 667 / 10 :=
  C5_barrel_rate_le_hardhit_rate (fun _ => none) (fun _ => "D1")
    [{ ExitSpeed := some 100, Angle := some 20 },
     { ExitSpeed := some 90, Angle := some 5 },
     { ExitSpeed := some 96, Angle := some 15 }] none
    { avg_exit_velo := 953 / 10, percentile_90_ev := 100, max_exit_velo := 100
      barrel_rate := 667 / 10, hardhit_rate := 667 / 10
      comparison_level := none
      college_avg_exit_velo := none, college_percentile_90_ev := none
      college_max_exit_velo := none, college_barrel_rate := none
      college_hardhit_rate := none
      avg_exit_velo_comp := none, percentile_90_ev_comp := none
      max_exit_velo_comp := none, barrel_rate_comp := none
      hardhit_rate_comp := none }
    (by decide)

/-- Claim C8: for every non-empty input list in which no event has a
non-null, non-zero exit speed, calculate_hitting_summary returns (it does
not fail) the zero-valued summary: all five rate/velocity metrics are 0
and every comparison and reference field is absent. -/
theorem C8_zero_summary
    (cOf : String → Option CollegeAverages) (lOf : String → String)
    (data : List BattedBall) (nm : Option String)
    (hne : data ≠ []) (hall : ∀ e ∈ data, hasEV e = false) :
    calculate_hitting_summary cOf lOf data nm =
      some { avg_exit_velo := 0, percentile_90_ev := 0, max_exit_velo := 0
             barrel_rate := 0, hardhit_rate := 0
             comparison_level := none
             college_avg_exit_velo := none, college_percentile_90_ev := none
             college_max_exit_velo := none, college_barrel_rate := none
             college_hardhit_rate := none
             avg_exit_velo_comp := none, percentile_90_ev_comp := none
             max_exit_velo_comp := none, barrel_rate_comp := none
             hardhit_rate_comp := none } := by
  have hev : data.filter hasEV = [] := by
    rw [List.filter_eq_nil_iff]
    intro a ha
    simp [hall a ha]
  rw [calculate_hitting_summary.eq_def, if_neg hne, if_pos hev]

unseal Rat.add Rat.mul Rat.inv Rat.sub List.merge List.mergeSort in
/-- Witness for C8_zero_summary on a two-event list holding one null exit
speed and one zero exit speed. -/
theorem C8_zero_summary_witness :
    calculate_hitting_summary (fun _ => none) (fun _ => "D1")
        [{ ExitSpeed := none, Angle := some 10 },
         { ExitSpeed := some 0, Angle := some 20 }] (some "p") =
      some { avg_exit_velo := 0, percentile_90_ev := 0, max_exit_velo := 0
             barrel_rate := 0, hardhit_rate := 0
             comparison_level := none
             college_avg_exit_velo := none, college_percentile_90_ev := none
             college_max_exit_velo := none, college_barrel_rate := none
             college_hardhit_rate := none
             avg_exit_velo_comp := none, percentile_90_ev_comp := none
             max_exit_velo_comp := none, barrel_rate_comp := none
             hardhit_rate_comp := none } :=
  C8_zero_summary (fun _ => none) (fun _ => "D1")
    [{ ExitSpeed := none, Angle := some 10 },
     { ExitSpeed := some 0, Angle := some 20 }] (some "p")
    (by decide) (by decide)

/-- Claim C9: when the reference-distribution lookup fails or returns no
data (modelled by the lookup parameter returning none, exactly what
get_college_hitting_averages does on error or missing data),
calculate_hitting_summary still returns a summary for every non-empty
input (no error is propagated), every comparison and reference field of
that summary is null, and its five metric fields agree with the summary
computed with no comparison requested at all. -/
theorem C9_lookup_failure_yields_null_comparisons
    (lOf lOf2 : String → String) (cOf2 : String → Option CollegeAverages)
    (data : List BattedBall) (nm : String) (hne : data ≠ []) :
    (calculate_hitting_summary (fun _ => none) lOf data (some nm)).isSome = true ∧
    ∀ s s2, calculate_hitting_summary (fun _ => none) lOf data (some nm) = some s →
      calculate_hitting_summary cOf2 lOf2 data none = some s2 →
      (s.avg_exit_velo_comp = none ∧ s.percentile_90_ev_comp = none ∧
       s.max_exit_velo_comp = none ∧ s.barrel_rate_comp = none ∧
       s.hardhit_rate_comp = none) ∧
      (s.college_avg_exit_velo = none ∧ s.college_percentile_90_ev = none ∧
       s.college_max_exit_velo = none ∧ s.college_barrel_rate = none ∧
       s.college_hardhit_rate = none) ∧
      (s.avg_exit_velo = s2.avg_exit_velo ∧ s.percentile_90_ev = s2.percentile_90_ev ∧
       s.max_exit_velo = s2.max_exit_velo ∧ s.barrel_rate = s2.barrel_rate ∧
       s.hardhit_rate = s2.hardhit_rate) := by
  constructor
  · rw [calculate_hitting_summary, if_neg hne]
    by_cases hev : data.filter hasEV = []
    · rw [if_pos hev]
      rfl
    · rw [if_neg hev]
      rfl
  · intro s s2 hs hs2
    rw [calculate_hitting_summary, if_neg hne] at hs
    rw [calculate_hitting_summary.eq_def, if_neg hne] at hs2
    by_cases hev : data.filter hasEV = []
    · rw [if_pos hev] at hs hs2
      have h1 := (Option.some.inj hs).symm
      subst h1
      have h2 := (Option.some.inj hs2).symm
      subst h2
      exact ⟨⟨rfl, rfl, rfl, rfl, rfl⟩, ⟨rfl, rfl, rfl, rfl, rfl⟩,
        ⟨rfl, rfl, rfl, rfl, rfl⟩⟩
    · rw [if_neg hev] at hs hs2
      by_cases hnm : nm = ""
      · rw [if_pos hnm] at hs
        have h1 := (Option.some.inj hs).symm
        subst h1
        have h2 := (Option.some.inj hs2).symm
        subst h2
        exact ⟨⟨rfl, rfl, rfl, rfl, rfl⟩, ⟨rfl, rfl, rfl, rfl, rfl⟩,
          ⟨rfl, rfl, rfl, rfl, rfl⟩⟩
      · rw [if_neg hnm] at hs
        have h1 := (Option.some.inj hs).symm
        subst h1
        have h2 := (Option.some.inj hs2).symm
        subst h2
        exact ⟨⟨rfl, rfl, rfl, rfl, rfl⟩, ⟨rfl, rfl, rfl, rfl, rfl⟩,
          ⟨rfl, rfl, rfl, rfl, rfl⟩⟩

/-- Witness for C9_lookup_failure_yields_null_comparisons on a one-event
list: the summary is still produced when the lookup returns none. -/
theorem C9_lookup_failure_witness :
    (calculate_hitting_summary (fun _ => none) (fun _ => "D1")
      [{ ExitSpeed := some 100, Angle := some 20 }] (some "p")).isSome = true :=
  (C9_lookup_failure_yields_null_comparisons (fun _ => "D1") (fun _ => "D1")
    (fun _ => none) [{ ExitSpeed := some 100, Angle := some 20 }] "p"
    (by decide)).1

theorem clip45_idem (d : ℚ) : clip45 (clip45 d) = clip45 d := by
  unfold clip45
  have h1 : max (-45 : ℚ) (min 45 d) ≤ 45 := max_le (by norm_num) (min_le_left _ _)
  have h2 : (-45 : ℚ) ≤ max (-45) (min 45 d) := le_max_left _ _
  rw [min_eq_right h1, max_eq_right h2]

/-- Claim C6: for every finite direction and distance (including negative
distances, distances beyond 500 ft and directions outside plus or minus
45 degrees) both coordinates of calculate_spray_position lie in [5, 95],
and the direction is clipped to [-45, 45] first rather than rejected:
the output is unchanged if the direction is replaced by its clipped
value. -/
theorem C6_spray_position_bounds (direction distance : ℚ) :
    (5 ≤ (calculate_spray_position direction distance).1 ∧
     (calculate_spray_position direction distance).1 ≤ 95 ∧
     5 ≤ (calculate_spray_position direction distance).2 ∧
     (calculate_spray_position direction distance).2 ≤ 95) ∧
    calculate_spray_position direction distance =
      calculate_spray_position (clip45 direction) distance := by
  constructor
  · unfold calculate_spray_position
    exact ⟨le_max_left _ _, max_le (by norm_num) (min_le_left _ _),
      le_max_left _ _, max_le (by norm_num) (min_le_left _ _)⟩
  · unfold calculate_spray_position sprayRaw
    rw [clip45_idem]

/-- Claim C7: calculate_spray_position maps distance to a radius percent
by five piecewise-linear bands ([0,100] onto [0,15], (100,200] onto
[15,30], (200,300] onto [30,45], (300,400] onto [45,60], (400,500] onto
[60,70]), saturating at exactly 70 for every distance at least 500 ft;
and direction 0 with distance 300 gives radius percent 45 and the point
(50, 40), with no clamp triggered (the raw and clamped outputs agree). -/
theorem C7_radius_bands :
    (∀ d : ℚ, 500 ≤ d → radius_percent d = 70) ∧
    (∀ d : ℚ, 0 ≤ d → d ≤ 100 → radius_percent d = d / 100 * 15) ∧
    (∀ d : ℚ, 100 < d → d ≤ 200 → radius_percent d = 15 + (d - 100) / 100 * 15) ∧
    (∀ d : ℚ, 200 < d → d ≤ 300 → radius_percent d = 30 + (d - 200) / 100 * 15) ∧
    (∀ d : ℚ, 300 < d → d ≤ 400 → radius_percent d = 45 + (d - 300) / 100 * 15) ∧
    (∀ d : ℚ, 400 < d → d ≤ 500 → radius_percent d = 60 + (d - 400) / 100 * 10) ∧
    radius_percent 300 = 45 ∧
    sprayRaw 0 300 = ((50 : ℝ), (40 : ℝ)) ∧
    calculate_spray_position 0 300 = ((50 : ℝ), (40 : ℝ)) := by
  have hr300 : radius_percent 300 = 45 := by norm_num [radius_percent]
  have hraw : sprayRaw 0 300 = ((50 : ℝ), (40 : ℝ)) := by
    unfold sprayRaw clip45
    rw [hr300]
    rw [min_eq_right (by norm_num : (0 : ℚ) ≤ 45),
      max_eq_right (by norm_num : (-45 : ℚ) ≤ 0)]
    norm_num
  refine ⟨?_, ?_, ?_, ?_, ?_, ?_, hr300, hraw, ?_⟩
  · intro d hd
    unfold radius_percent
    rw [if_neg (by linarith), if_neg (by linarith), if_neg (by linarith),
      if_neg (by linarith)]
    have h1 : (1 : ℚ) ≤ (d - 400) / 100 := by
      rw [le_div_iff₀ (by norm_num : (0 : ℚ) < 100)]
      linarith
    rw [min_eq_right h1]
    norm_num
  · intro d _ h100
    unfold radius_percent
    rw [if_pos h100]
  · intro d h100 h200
    unfold radius_percent
    rw [if_neg (not_le.mpr h100), if_pos h200]
  · intro d h200 h300
    unfold radius_percent
    rw [if_neg (by linarith), if_neg (not_le.mpr h200), if_pos h300]
  · intro d h300 h400
    unfold radius_percent
    rw [if_neg (by linarith), if_neg (by linarith), if_neg (not_le.mpr h300),
      if_pos h400]
  · intro d h400 h500
    unfold radius_percent
    rw [if_neg (by linarith), if_neg (by linarith), if_neg (by linarith),
      if_neg (not_le.mpr h400)]
    have h1 : (d - 400) / 100 ≤ 1 := by
      rw [div_le_one (by norm_num : (0 : ℚ) < 100)]
      linarith
    rw [min_eq_left h1]
  · unfold calculate_spray_position
    rw [hraw]
    have hx : max (5 : ℝ) (min 95 50) = 50 := by
      rw [min_eq_right (by norm_num : (50 : ℝ) ≤ 95),
        max_eq_right (by norm_num : (5 : ℝ) ≤ 50)]
    have hy : max (5 : ℝ) (min 95 40) = 40 := by
      rw [min_eq_right (by norm_num : (40 : ℝ) ≤ 95),
        max_eq_right (by norm_num : (5 : ℝ) ≤ 40)]
    simp only [hx, hy]

/-- Witness for C7_radius_bands: the saturation band at distance 600 ft
gives exactly radius percent 70. -/
theorem C7_radius_bands_witness : radius_percent 600 = 70 :=
  C7_radius_bands.1 600 (by norm_num)

/-- Claim C10: calculate_contact_stats is total only when every record
with a non-null ContactPositionX is accompanied by non-null Y and Z data:
on a list where some record has a non-null ContactPositionX but every
record has a null ContactPositionY (or every record has a null
ContactPositionZ), the unguarded average division over the empty Y (or Z)
list raises ZeroDivisionError instead of returning null. -/
theorem C10_contact_stats_division_by_zero (data : List ContactRecord)
    (hx : ∃ d ∈ data, d.ContactPositionX ≠ none)
    (hyz : (∀ d ∈ data, d.ContactPositionY = none) ∨
           (∀ d ∈ data, d.ContactPositionZ = none)) :
    calculate_contact_stats data = .error "ZeroDivisionError" := by
  obtain ⟨d0, hd0, hdx⟩ := hx
  have hne : data ≠ [] := by
    intro h
    subst h
    simp at hd0
  have hxs : data.filterMap ContactRecord.ContactPositionX ≠ [] := by
    intro hempty
    rw [List.filterMap_eq_nil_iff] at hempty
    exact hdx (hempty d0 hd0)
  have hxlen : ((data.filterMap ContactRecord.ContactPositionX).length : ℚ) ≠ 0 :=
    Nat.cast_ne_zero.mpr (List.length_pos.mpr hxs).ne'
  unfold calculate_contact_stats
  rw [if_neg hne, if_neg hxs]
  simp only [pydiv, if_neg hxlen]
  cases hyz with
  | inl hyn =>
    have hys : data.filterMap ContactRecord.ContactPositionY = [] := by
      rw [List.filterMap_eq_nil_iff]
      exact hyn
    rw [hys]
    simp [pydiv]
  | inr hzn =>
    have hzs : data.filterMap ContactRecord.ContactPositionZ = [] := by
      rw [List.filterMap_eq_nil_iff]
      exact hzn
    by_cases hys : data.filterMap ContactRecord.ContactPositionY = []
    · rw [hys]
      simp [pydiv]
    · have hylen : ((data.filterMap ContactRecord.ContactPositionY).length : ℚ) ≠ 0 :=
        Nat.cast_ne_zero.mpr (List.length_pos.mpr hys).ne'
      simp only [if_neg hylen]
      rw [hzs]
      simp [pydiv]

/-- Witness for C10_contact_stats_division_by_zero on the single record
with ContactPositionX = 1 and null Y and Z. -/
theorem C10_contact_stats_division_by_zero_witness :
    calculate_contact_stats
        [{ ContactPositionX := some 1, ContactPositionY := none,
           ContactPositionZ := none }] = .error "ZeroDivisionError" :=
  C10_contact_stats_division_by_zero
    [{ ContactPositionX := some 1, ContactPositionY := none,
       ContactPositionZ := none }]
    (by decide) (Or.inl (by decide))
